import Mathlib

/-!
Verification of the process-supervision and serialized-command-dispatch
subsystem of the Sndctl repository
(`src/api-python/src/sonos_hub/services/sonos_command_service.py` and
`src/api-python/src/sndctl/services/soco_cli_service.py`).

The Python code is shallowly embedded: each method becomes a pure Lean
function over an explicit state, with the outcomes of its effectful calls
(HTTP requests, subprocess spawns, filesystem probes) supplied as explicit
parameters, so that every control-flow branch of the source is a branch of
the Lean definition.
-/

set_option autoImplicit false

/-! ### Command dispatcher (`SonosCommandService`) -/

/-- Result record returned by `execute_command`.  Mirrors the pydantic
model `SocoCliResponse`.  The model file itself (`sonos_hub/models/sonos.py`)
is not part of the sources; the field defaults `result = ""` and
`error_msg = ""` are modelled from the spec ("result_text (string, may be
empty)", "with result_text empty"). -/
structure SocoCliResponse where
  speaker : String
  action : String
  args : List String
  exit_code : Int
  result : String := ""
  error_msg : String := ""
deriving DecidableEq, Repr

/-- Fields of the JSON object body of a 200 response, each optional,
mirroring the dynamic `result.get(key, default)` reads in
`execute_command` (sonos_command_service.py lines 145-153). -/
structure JsonBody where
  speaker : Option String := none
  action : Option String := none
  args : Option (List String) := none
  exit_code : Option Int := none
  result : Option String := none
  error_msg : Option String := none
deriving DecidableEq, Repr

/-- Outcome of the single outbound `client.get(url)` call made by
`execute_command`: either the call raised a transport-level exception
(carrying `str(e)`), or a response arrived with a status code and a JSON
body whose parse (`response.json()`) either succeeded or raised (the
`Except.error` message is the stringified parse exception, which the
source's blanket `except` turns into a `-1` result). -/
inductive HttpOutcome where
  | exn (msg : String)
  | response (status : Nat) (body : Except String JsonBody)
deriving Repr

/-- Shallow embedding of `SonosCommandService.execute_command`
(sonos_command_service.py lines 105-163).  The URL construction and
logging are effect-free with respect to the returned value and are not
modelled; the branching on the HTTP outcome is verbatim:
non-200 status returns `exit_code = status`, `error_msg = "HTTP {status}"`;
a 200 status reads each JSON field with a fallback; any exception
(transport or JSON parse) returns `exit_code = -1`, `error_msg = str(e)`. -/
def execute_command (speaker action : String) (args : List String)
    (h : HttpOutcome) : SocoCliResponse :=
  match h with
  | HttpOutcome.exn e =>
    { speaker := speaker, action := action, args := args,
      exit_code := -1, result := "", error_msg := e }
  | HttpOutcome.response status body =>
    if status ≠ 200 then
      { speaker := speaker, action := action, args := args,
        exit_code := (status : Int), result := "",
        error_msg := "HTTP " ++ toString status }
    else
      match body with
      | Except.error e =>
        { speaker := speaker, action := action, args := args,
          exit_code := -1, result := "", error_msg := e }
      | Except.ok j =>
        { speaker := j.speaker.getD speaker,
          action := j.action.getD action,
          args := j.args.getD args,
          exit_code := j.exit_code.getD 0,
          result := j.result.getD "",
          error_msg := j.error_msg.getD "" }

/-- Boolean prefix test on character lists (Python `str.startswith`
as used implicitly by substring containment). -/
def prefixB : List Char → List Char → Bool
  | [], _ => true
  | _ :: _, [] => false
  | a :: as, b :: bs => decide (a = b) && prefixB as bs

/-- Boolean substring-containment test on character lists: Python's
`needle in haystack` for strings. -/
def substrB : List Char → List Char → Bool
  | pat, [] => List.isEmpty pat
  | pat, c :: rest => prefixB pat (c :: rest) || substrB pat rest

/-- Fixed list of connectivity-failure markers from
`_is_timeout_or_connection_error` (sonos_command_service.py lines 172-176). -/
def offlineNeedles : List String :=
  ["timed out", "timeout", "connection refused", "unreachable",
   "no route to host", "network is unreachable", "connecttimeouterror",
   "max retries exceeded"]

/-- Shallow embedding of the static helper
`SonosCommandService._is_timeout_or_connection_error`
(sonos_command_service.py lines 165-176).  `none` models a `None`
argument; the `if m = ""` branch models Python's falsiness test
`if not error_msg`; `error_msg.lower()` is the character-wise
lowercasing `toList.map Char.toLower` (the character list of
`String.toLower`). -/
def _is_timeout_or_connection_error (error_msg : Option String) : Bool :=
  match error_msg with
  | none => false
  | some m =>
    if m = "" then false
    else offlineNeedles.any (fun p => substrB p.toList (m.toList.map Char.toLower))

/-- Outcome of the single `GET` issued by `get_speakers` or
`rediscover_speakers`: a transport exception, or a response with a status
and a parsed body.  The body abstraction records whether `response.json()`
raised (`Except.error`), and otherwise whether the relevant key
(`"speakers"` or `"speakers_discovered"`) was present and with which list
of names. -/
inductive ListFetch where
  | exn (msg : String)
  | response (status : Nat) (body : Except String (Option (List String)))
deriving Repr

/-- Shallow embedding of `SonosCommandService.get_speakers`
(sonos_command_service.py lines 47-74): non-200 status, a missing
`"speakers"` key, or any exception yields `[]`; otherwise the listed names
with falsy (empty) entries filtered out. -/
def get_speakers (r : ListFetch) : List String :=
  match r with
  | ListFetch.exn _ => []
  | ListFetch.response status body =>
    if status ≠ 200 then []
    else
      match body with
      | Except.error _ => []
      | Except.ok none => []
      | Except.ok (some names) => names.filter (fun s => s ≠ "")

/-- Shallow embedding of `SonosCommandService.rediscover_speakers`
(sonos_command_service.py lines 76-103), structurally identical to
`get_speakers` but reading the `"speakers_discovered"` key. -/
def rediscover_speakers (r : ListFetch) : List String :=
  match r with
  | ListFetch.exn _ => []
  | ListFetch.response status body =>
    if status ≠ 200 then []
    else
      match body with
      | Except.error _ => []
      | Except.ok none => []
      | Except.ok (some names) => names.filter (fun s => s ≠ "")

/-! ### Process supervisor (`SocoCliService`) -/

/-- Handle to a spawned subprocess: its pid, and whether `poll()` still
reports it alive (`poll() is None`). -/
structure ProcHandle where
  pid : Nat
  alive : Bool
deriving DecidableEq, Repr

/-- Mutable state of a `SocoCliService` instance: `_process`,
`_started_at` (timestamps abstracted to `Nat`), and `_is_starting`
(soco_cli_service.py lines 26-29). -/
structure SocoState where
  process : Option ProcHandle
  startedAt : Option Nat
  isStarting : Bool
deriving DecidableEq, Repr

/-- Shallow embedding of `SocoCliService.is_running`
(soco_cli_service.py lines 36-40): a handle exists and `poll()` is `None`. -/
def is_running (s : SocoState) : Bool :=
  match s.process with
  | none => false
  | some p => p.alive

/-- Status snapshot record returned by `get_status`. -/
structure SocoStatus where
  isRunning : Bool
  processId : Option Nat
  serverUrl : Option String
  startedAt : Option Nat
deriving DecidableEq, Repr

/-- Shallow embedding of `SocoCliService.get_status`
(soco_cli_service.py lines 113-120).  Note the source guards `processId`
with `if self._process` (handle present) but `serverUrl` with
`self.is_running()` (handle present and alive). -/
def get_status (serverUrl : String) (s : SocoState) : SocoStatus :=
  { isRunning := is_running s,
    processId := s.process.map ProcHandle.pid,
    serverUrl := if is_running s then some serverUrl else none,
    startedAt := s.startedAt }

/-- Outcome of the 2-second health probe `GET {server_url}/speakers`
attempted at one iteration of the readiness loop: an HTTP status, or an
exception (timeout, connection refused), which the inner `except` of the
source swallows before continuing to the next iteration. -/
inductive ProbeOutcome where
  | status (code : Nat)
  | exn (msg : String)
deriving DecidableEq, Repr

/-- Outcome of one iteration of the readiness polling loop in
`start_server` (soco_cli_service.py lines 173-188): whether
`self.is_running()` still saw the child alive, and how the 2-second
health probe ended. -/
structure PollObs where
  processAlive : Bool
  probe : ProbeOutcome
deriving DecidableEq, Repr

/-- Shallow embedding of the readiness polling loop
`for i in range(10): ...` of `start_server` (soco_cli_service.py
lines 173-191).  `pollLoopN obs n i` runs `n` remaining iterations
starting at index `i`; it returns the boolean result of `start_server`
from the loop onward, paired with the final liveness of the child as last
observed (used to record the handle's state).  An exhausted loop returns
`true` ("started but not yet responsive" warning path); in `start_server`
the loop is only ever entered with 10 iterations, so the `(true, true)`
base case is reached only after an all-alive run. -/
def pollLoopN (obs : Nat → PollObs) : Nat → Nat → Bool × Bool
  | 0, _ => (true, true)
  | n + 1, i =>
    if (obs i).processAlive = false then (false, false)
    else if (obs i).probe = ProbeOutcome.status 200 then (true, true)
    else pollLoopN obs n (i + 1)

/-- Outcome of the `subprocess.Popen` spawn in `start_server`: success
with a pid, or an exception (e.g. `FileNotFoundError`), which the source
catches and converts to a `false` return. -/
inductive SpawnOutcome where
  | ok (pid : Nat)
  | exn (msg : String)
deriving DecidableEq, Repr

/-- Environment observed by one `start_server` call: the spawn outcome,
the per-iteration readiness observations, and the current timestamp
recorded into `_started_at`. -/
structure StartEnv where
  spawn : SpawnOutcome
  obs : Nat → PollObs
  now : Nat

/-- Shallow embedding of `SocoCliService.start_server`
(soco_cli_service.py lines 122-197), returning the boolean result and the
post-state.  Lock acquisition is atomic here (the embedding interleaves
whole calls), so the fast path and the double-check under the lock are
both present but test the same state; on the spawn-exception path the
`finally` clears `_is_starting` and `_process`/`_started_at` were never
assigned; on the spawn-success path the handle and timestamp are recorded
and the readiness loop decides the returned boolean. -/
def start_server (s : SocoState) (env : StartEnv) : Bool × SocoState :=
  if is_running s then (true, s)
  else if is_running s || s.isStarting then (true, s)
  else
    match env.spawn with
    | SpawnOutcome.exn _ => (false, { s with isStarting := false })
    | SpawnOutcome.ok pid =>
      let r := pollLoopN env.obs 10 0
      (r.1, { process := some { pid := pid, alive := r.2 },
              startedAt := some env.now, isStarting := false })

/-- Outcome of the termination sequence in `stop_server` when a handle is
present: `terminate()` + `wait(5)` succeeded; `wait` raised
`TimeoutExpired` and the child was killed; or an unexpected exception was
caught by the blanket `except`. -/
inductive StopOutcome where
  | graceful
  | killedAfterTimeout
  | exn (msg : String)
deriving DecidableEq, Repr

/-- Shallow embedding of `SocoCliService.stop_server`
(soco_cli_service.py lines 199-222).  With no handle it returns `true`
immediately (before the `try`, so the `finally` does not run); otherwise
the `finally` clears `_process` and `_started_at` on every path, and the
result is `true` except on the unexpected-exception path. -/
def stop_server (s : SocoState) (o : StopOutcome) : Bool × SocoState :=
  match s.process with
  | none => (true, s)
  | some _ =>
    match o with
    | StopOutcome.graceful =>
      (true, { s with process := none, startedAt := none })
    | StopOutcome.killedAfterTimeout =>
      (true, { s with process := none, startedAt := none })
    | StopOutcome.exn _ =>
      (false, { s with process := none, startedAt := none })

/-- One step of a supervisor's life: a `start_server` call, a
`stop_server` call, or the child process exiting on its own (which is
what makes `poll()` turn non-`None` between calls). -/
inductive SStep : SocoState → SocoState → Prop where
  | start (s : SocoState) (env : StartEnv) : SStep s (start_server s env).2
  | stop (s : SocoState) (o : StopOutcome) : SStep s (stop_server s o).2
  | procExit (s : SocoState) (p : ProcHandle) : s.process = some p →
      SStep s { s with process := some { p with alive := false } }

/-- Supervisor states reachable from the freshly constructed service
(`__init__`, soco_cli_service.py lines 19-29: no handle, no timestamp,
not starting) by any sequence of steps. -/
inductive SReach : SocoState → Prop where
  | init : SReach { process := none, startedAt := none, isStarting := false }
  | step {s s' : SocoState} : SReach s → SStep s s' → SReach s'

/-! ### Executable-path resolution (`SocoCliService._get_executable_path`) -/

/-- Split of a character sequence at every `'/'`, mirroring Python's
`"p".split("/")` (empty pieces kept). -/
def splitSlash : List Char → List (List Char)
  | [] => [[]]
  | '/' :: rest => [] :: splitSlash rest
  | c :: rest =>
    match splitSlash rest with
    | [] => [[c]]
    | h :: t => (c :: h) :: t

/-- Interleaving of `'/'` between path components (the inverse direction
of `splitSlash` on normalized parts). -/
def joinSlash : List (List Char) → List Char
  | [] => []
  | [x] => x
  | x :: xs => x ++ '/' :: joinSlash xs

/-- Character-level rendering of a Python `pathlib.PurePosixPath` built
from `p`: duplicate separators, `.` components and trailing slashes are
dropped at construction, a leading `/` (or the special `//` double root)
is kept, and the empty path renders as `.`. -/
def pathStrL (p : List Char) : List Char :=
  let parts := (splitSlash p).filter (fun c => !c.isEmpty && c ≠ ['.'])
  let root : List Char :=
    match p with
    | '/' :: '/' :: '/' :: _ => ['/']
    | '/' :: '/' :: _ => ['/', '/']
    | '/' :: _ => ['/']
    | _ => []
  if parts.isEmpty then (if root.isEmpty then ['.'] else root)
  else root ++ joinSlash parts

/-- String rendering of `Path(p)`, i.e. `str(Path(p))`.  The source
converts the configured path through `Path(...)`/`str(...)`
(soco_cli_service.py lines 46-49), and every `Path(x).exists()` stats
this normalized rendering. -/
def pathStr (p : String) : String :=
  String.mk (pathStrL p.data)

/-- Rendering of `str(Path(home) / rel)` for a relative `rel`, as used to
build the per-user candidate paths from `Path.home()`. -/
def pathJoin (home rel : String) : String :=
  if home.data.getLast? = some '/' then pathStr (String.mk (home.data ++ rel.data))
  else pathStr (String.mk (home.data ++ '/' :: rel.data))

/-- Whitespace stripping at both ends of a character sequence, mirroring
Python's `str.strip()` as applied to the captured `which` stdout. -/
def stripWS (l : List Char) : List Char :=
  ((l.dropWhile Char.isWhitespace).reverse.dropWhile Char.isWhitespace).reverse

/-- Outcome of the `subprocess.run(["which", command], ...)` call inside
`_resolve_from_path`: an exception (including the 5-second timeout), or a
completed run with a return code and captured stdout. -/
inductive WhichOutcome where
  | exn (msg : String)
  | run (returncode : Int) (stdout : String)
deriving DecidableEq, Repr

/-- Environment observed by one `_get_executable_path` call: the
configured override (`none` models an unset or empty, i.e. falsy,
`settings.soco_cli_executable_path`), the rendering of `Path.home()`, the
filesystem's answer to each `stat`, and the `which` subprocess outcome. -/
structure ExecEnv where
  configured : Option String
  home : String
  pathExists : String → Bool
  which : WhichOutcome

/-- Shallow embedding of `SocoCliService._resolve_from_path`
(soco_cli_service.py lines 96-111): `none` on any exception, a non-zero
return code, empty (falsy) stripped stdout, or a non-existing resolved
path; otherwise the stripped stdout verbatim. -/
def _resolve_from_path (env : ExecEnv) : Option String :=
  match env.which with
  | WhichOutcome.exn _ => none
  | WhichOutcome.run rc out =>
    if rc = 0 then
      let p := String.mk (stripWS out.data)
      if p ≠ "" && env.pathExists (pathStr p) then some p else none
    else none

/-- Fixed ordered candidate list built by `_get_executable_path`
(soco_cli_service.py lines 51-74): two per-user locations under the
current home, the same two under each of the fixed fallback users, then
two system-wide locations. -/
def candidatePaths (home : String) : List String :=
  [pathJoin home ".local/bin/sonos-http-api-server",
   pathJoin home ".local/share/pipx/venvs/soco-cli/bin/sonos-http-api-server"]
  ++ (["danmc", "pi", "sonos"].map (fun u =>
        ["/home/" ++ u ++ "/.local/bin/sonos-http-api-server",
         "/home/" ++ u ++ "/.local/share/pipx/venvs/soco-cli/bin/sonos-http-api-server"])).flatten
  ++ ["/usr/local/bin/sonos-http-api-server", "/opt/homebrew/bin/sonos-http-api-server"]

/-- Shallow embedding of `SocoCliService._get_executable_path`
(soco_cli_service.py lines 42-94): a truthy configured path whose
normalized rendering exists is returned as that rendering; otherwise the
first existing candidate is returned verbatim; otherwise `which`
resolution; otherwise the bare command name.  Total by construction,
mirroring the source's never-throw behaviour (its only fallible effects
sit inside `_resolve_from_path`'s `try`/`except`). -/
def _get_executable_path (env : ExecEnv) : String :=
  match (match env.configured with
         | some cfg => if env.pathExists (pathStr cfg) then some (pathStr cfg) else none
         | none => none) with
  | some p => p
  | none =>
    match (candidatePaths env.home).find? (fun p => env.pathExists (pathStr p)) with
    | some p => p
    | none =>
      match _resolve_from_path env with
      | some p => p
      | none => "sonos-http-api-server"

/-! ### Serialized dispatch (the request lock of `SonosCommandService`) -/

/-- Program counter of one task calling `execute_command`: it has not yet
reached the `async with self._request_lock` statement (`idle`), is
suspended waiting for the lock (`waiting`), is inside the `async with`
block where the outbound HTTP request is issued and its result recorded
(`critical`), or has exited the block (`done`). -/
inductive TaskPC where
  | idle
  | waiting
  | critical
  | done
deriving DecidableEq, Repr

/-- State of a dispatcher instance shared by concurrently running
`execute_command` calls: each task's program counter and the
`asyncio.Lock` (`_request_lock`, sonos_command_service.py line 32),
recorded as the index of the task currently holding it. -/
structure DispState where
  pcs : List TaskPC
  lock : Option Nat
deriving DecidableEq, Repr

/-- Interleaving semantics of concurrent `execute_command` calls on one
dispatcher.  Tasks suspend only at `await` points; an `asyncio.Lock` is
granted only when free, atomically with the awaiting task's resumption.
`call` reaches the `async with`; `acquire` obtains the free lock and
enters the block; `finish` completes the body — the HTTP call and the
recording of its result, successful or not, including the `except`
branch — and releases the lock on block exit. -/
inductive DStep : DispState → DispState → Prop where
  | call (s : DispState) (i : Nat) : s.pcs[i]? = some TaskPC.idle →
      DStep s { pcs := s.pcs.set i TaskPC.waiting, lock := s.lock }
  | acquire (s : DispState) (i : Nat) : s.pcs[i]? = some TaskPC.waiting →
      s.lock = none →
      DStep s { pcs := s.pcs.set i TaskPC.critical, lock := some i }
  | finish (s : DispState) (i : Nat) : s.pcs[i]? = some TaskPC.critical →
      s.lock = some i →
      DStep s { pcs := s.pcs.set i TaskPC.done, lock := none }

/-- Dispatcher states reachable from `n` tasks about to call
`execute_command` on a freshly constructed service (lock free). -/
inductive DReach : DispState → Prop where
  | init (n : Nat) : DReach { pcs := List.replicate n TaskPC.idle, lock := none }
  | step {s s' : DispState} : DReach s → DStep s s' → DReach s'

/-- Concrete environment exercising `_get_executable_path`: the
configured path contains a `.` component, the modelled filesystem
answers `true` for both its raw and its normalized spelling (they name
the same file), and no fallback is usable. -/
def c8Env : ExecEnv :=
  { configured := some "/opt/./sonos-http-api-server",
    home := "/root",
    pathExists := fun q =>
      q = "/opt/sonos-http-api-server" || q = "/opt/./sonos-http-api-server",
    which := WhichOutcome.run 1 "" }

/-- Concrete supervisor state holding a handle to an already-exited
child, as left behind by a `start_server` call whose spawned process died
during the readiness loop. -/
def c9State : SocoState :=
  { process := some { pid := 1234, alive := false }, startedAt := some 5,
    isStarting := false }

/-- Concrete start environment whose spawned child stays alive but never
answers the readiness probe. -/
def c5Env : StartEnv :=
  { spawn := SpawnOutcome.ok 9,
    obs := fun _ => { processAlive := true, probe := ProbeOutcome.exn "timed out" },
    now := 0 }

/-! ### Theorems -/

/-- C2: `execute_command` propagates no exception; a non-200 HTTP status
yields a result with `exit_code` equal to that status, `error_msg`
equal to `"HTTP {status}"` and empty `result`, while a transport-level
exception yields `exit_code = -1`, `error_msg` equal to the exception's
text and empty `result`. -/
theorem execute_command_error_paths :
    (∀ (sp ac : String) (ar : List String) (status : Nat)
       (body : Except String JsonBody), status ≠ 200 →
       execute_command sp ac ar (HttpOutcome.response status body) =
         { speaker := sp, action := ac, args := ar, exit_code := (status : Int),
           result := "", error_msg := "HTTP " ++ toString status }) ∧
    (∀ (sp ac : String) (ar : List String) (e : String),
       execute_command sp ac ar (HttpOutcome.exn e) =
         { speaker := sp, action := ac, args := ar, exit_code := -1,
           result := "", error_msg := e }) := by
  constructor
  · intro sp ac ar status body h
    simp [execute_command, h]
  · intro sp ac ar e
    rfl

/-- Witness for C2: a fake 500 response produces exit code 500 and the
message `"HTTP 500"`. -/
theorem execute_command_error_paths_witness :
    (500 : Nat) ≠ 200 ∧
    execute_command "Kitchen" "volume" [] (HttpOutcome.response 500 (Except.error "not json")) =
      { speaker := "Kitchen", action := "volume", args := [], exit_code := 500,
        result := "", error_msg := "HTTP " ++ toString 500 } :=
  ⟨by decide,
   execute_command_error_paths.1 "Kitchen" "volume" [] 500 (Except.error "not json") (by decide)⟩

/-- C7: on a 200 response with JSON object body `j`, every field of the
result is taken from `j` when present and otherwise falls back to the
original request's value (`speaker`/`action`/`args`) or the stated
default (`0` for `exit_code`, `""` for `result` and `error_msg`). -/
theorem execute_command_success_fields (sp ac : String) (ar : List String) (j : JsonBody) :
    (execute_command sp ac ar (HttpOutcome.response 200 (Except.ok j))).speaker = j.speaker.getD sp ∧
    (execute_command sp ac ar (HttpOutcome.response 200 (Except.ok j))).action = j.action.getD ac ∧
    (execute_command sp ac ar (HttpOutcome.response 200 (Except.ok j))).args = j.args.getD ar ∧
    (execute_command sp ac ar (HttpOutcome.response 200 (Except.ok j))).exit_code = j.exit_code.getD 0 ∧
    (execute_command sp ac ar (HttpOutcome.response 200 (Except.ok j))).result = j.result.getD "" ∧
    (execute_command sp ac ar (HttpOutcome.response 200 (Except.ok j))).error_msg = j.error_msg.getD "" :=
  ⟨rfl, rfl, rfl, rfl, rfl, rfl⟩

/-- C10: `get_speakers` and `rediscover_speakers` never return an empty
name: a transport exception, a non-200 status, an unparseable body or a
body lacking the expected key yield `[]`, and a successful body yields
the listed names with falsy (empty) entries filtered out. -/
theorem speakers_never_raise_nonempty :
    (∀ (r : ListFetch) (x : String), x ∈ get_speakers r → x ≠ "") ∧
    (∀ (r : ListFetch) (x : String), x ∈ rediscover_speakers r → x ≠ "") ∧
    (∀ e, get_speakers (ListFetch.exn e) = [] ∧ rediscover_speakers (ListFetch.exn e) = []) ∧
    (∀ (st : Nat) (b : Except String (Option (List String))), st ≠ 200 →
       get_speakers (ListFetch.response st b) = [] ∧
       rediscover_speakers (ListFetch.response st b) = []) ∧
    (∀ pe, get_speakers (ListFetch.response 200 (Except.error pe)) = [] ∧
           rediscover_speakers (ListFetch.response 200 (Except.error pe)) = []) ∧
    (get_speakers (ListFetch.response 200 (Except.ok none)) = [] ∧
     rediscover_speakers (ListFetch.response 200 (Except.ok none)) = []) ∧
    (∀ names,
       get_speakers (ListFetch.response 200 (Except.ok (some names))) =
         names.filter (fun s => s ≠ "") ∧
       rediscover_speakers (ListFetch.response 200 (Except.ok (some names))) =
         names.filter (fun s => s ≠ "")) := by
  have hmem : ∀ (r : ListFetch) (x : String), x ∈ get_speakers r → x ≠ "" := by
    intro r x hx
    cases r with
    | exn e => simp [get_speakers] at hx
    | response st b =>
      by_cases h200 : st = 200
      · subst h200
        cases b with
        | error e => simp [get_speakers] at hx
        | ok ob =>
          cases ob with
          | none => simp [get_speakers] at hx
          | some names =>
            simp only [get_speakers, if_neg (by simp : ¬(200 : Nat) ≠ 200),
              List.mem_filter] at hx
            simpa using hx.2
      · simp [get_speakers, h200] at hx
  have hmem2 : ∀ (r : ListFetch) (x : String), x ∈ rediscover_speakers r → x ≠ "" := by
    intro r x hx
    cases r with
    | exn e => simp [rediscover_speakers] at hx
    | response st b =>
      by_cases h200 : st = 200
      · subst h200
        cases b with
        | error e => simp [rediscover_speakers] at hx
        | ok ob =>
          cases ob with
          | none => simp [rediscover_speakers] at hx
          | some names =>
            simp only [rediscover_speakers, if_neg (by simp : ¬(200 : Nat) ≠ 200),
              List.mem_filter] at hx
            simpa using hx.2
      · simp [rediscover_speakers, h200] at hx
  refine ⟨hmem, hmem2, fun e => ⟨rfl, rfl⟩, ?_, fun pe => ⟨rfl, rfl⟩, ⟨rfl, rfl⟩,
    fun names => ⟨rfl, rfl⟩⟩
  intro st b hst
  constructor <;> simp [get_speakers, rediscover_speakers, hst]

/-- Witness for C10: a 500 response yields the empty speaker list. -/
theorem speakers_never_raise_nonempty_witness :
    (500 : Nat) ≠ 200 ∧ get_speakers (ListFetch.response 500 (Except.ok none)) = [] :=
  ⟨by decide,
   (speakers_never_raise_nonempty.2.2.2.1 500 (Except.ok none) (by decide)).1⟩

/-- C4: starting while already running is a no-op returning success: for
every state in which `is_running` holds, `start_server` returns `true`
with the state — in particular the process handle and the start
timestamp — unchanged, for every possible environment (so no spawn
outcome is even consulted). -/
theorem start_server_noop_when_running (s : SocoState) (env : StartEnv)
    (h : is_running s = true) : start_server s env = (true, s) := by
  simp [start_server, h]

/-- Witness for C4: a running supervisor ignores a start environment
whose spawn would fail. -/
theorem start_server_noop_when_running_witness :
    is_running { process := some { pid := 7, alive := true }, startedAt := some 3,
                 isStarting := false } = true ∧
    start_server
      { process := some { pid := 7, alive := true }, startedAt := some 3, isStarting := false }
      { spawn := SpawnOutcome.exn "executable missing",
        obs := fun _ => { processAlive := false, probe := ProbeOutcome.exn "e" }, now := 0 } =
      (true, { process := some { pid := 7, alive := true }, startedAt := some 3,
               isStarting := false }) :=
  ⟨rfl, start_server_noop_when_running _ _ rfl⟩

/-- Characterization of the boolean prefix test: `prefixB p l` holds
exactly when `l` extends `p`. -/
theorem prefixB_iff (p : List Char) : ∀ l : List Char,
    (prefixB p l = true ↔ ∃ t, l = p ++ t) := by
  induction p with
  | nil => intro l; simp [prefixB]
  | cons a as ih =>
    intro l
    cases l with
    | nil => simp [prefixB]
    | cons b bs =>
      simp only [prefixB, Bool.and_eq_true, decide_eq_true_eq, ih,
        List.cons_append, List.cons.injEq]
      constructor
      · rintro ⟨rfl, t, rfl⟩
        exact ⟨t, rfl, rfl⟩
      · rintro ⟨t, rfl, rfl⟩
        exact ⟨rfl, t, rfl⟩

/-- Characterization of the boolean substring test: `substrB p l` holds
exactly when `p` occurs contiguously inside `l`. -/
theorem substrB_iff (p : List Char) : ∀ l : List Char,
    (substrB p l = true ↔ ∃ pre suf, l = pre ++ p ++ suf) := by
  intro l
  induction l with
  | nil =>
    simp only [substrB, List.isEmpty_iff]
    constructor
    · rintro rfl
      exact ⟨[], [], rfl⟩
    · rintro ⟨pre, suf, h⟩
      rcases List.append_eq_nil.mp h.symm with ⟨h1, -⟩
      exact (List.append_eq_nil.mp h1).2
  | cons c rest ih =>
    simp only [substrB, Bool.or_eq_true, prefixB_iff, ih]
    constructor
    · rintro (⟨t, ht⟩ | ⟨pre, suf, hps⟩)
      · exact ⟨[], t, by simpa using ht⟩
      · exact ⟨c :: pre, suf, by simp [hps]⟩
    · rintro ⟨pre, suf, h⟩
      cases pre with
      | nil =>
        left
        exact ⟨suf, by simpa using h⟩
      | cons x xs =>
        right
        simp only [List.cons_append, List.cons.injEq] at h
        exact ⟨xs, suf, h.2⟩

/-- C6: the offline classifier answers `true` exactly when the lowercased
message contains one of the eight fixed marker substrings; in particular
it answers `false` on an absent (`None`) or empty message. -/
theorem offline_classifier_iff :
    (∀ m : String,
      (_is_timeout_or_connection_error (some m) = true ↔
        ∃ p ∈ offlineNeedles, ∃ pre suf : List Char,
          m.toList.map Char.toLower = pre ++ p.toList ++ suf)) ∧
    _is_timeout_or_connection_error none = false ∧
    _is_timeout_or_connection_error (some "") = false := by
  refine ⟨?_, rfl, rfl⟩
  intro m
  by_cases hm : m = ""
  · subst hm
    refine iff_of_false (by decide) ?_
    rintro ⟨p, hp, pre, suf, h⟩
    have h0 : ("".toList.map Char.toLower : List Char) = [] := rfl
    rw [h0] at h
    have hnil : p.toList = [] :=
      (List.append_eq_nil.mp ((List.append_eq_nil.mp h.symm).1)).2
    fin_cases hp <;> exact absurd hnil (by decide)
  · simp only [_is_timeout_or_connection_error, if_neg hm, List.any_eq_true]
    constructor
    · rintro ⟨p, hp, hb⟩
      exact ⟨p, hp, (substrB_iff _ _).mp hb⟩
    · rintro ⟨p, hp, hocc⟩
      exact ⟨p, hp, (substrB_iff _ _).mpr hocc⟩

/-- C8 counterexample: with `/opt/./sonos-http-api-server` configured and
existing (in both its raw and normalized spellings), the resolver returns
the pathlib-normalized `/opt/sonos-http-api-server`, not the configured
path verbatim. -/
theorem executable_path_not_verbatim :
    c8Env.configured = some "/opt/./sonos-http-api-server" ∧
    c8Env.pathExists "/opt/./sonos-http-api-server" = true ∧
    c8Env.pathExists "/opt/sonos-http-api-server" = true ∧
    _get_executable_path c8Env = "/opt/sonos-http-api-server" ∧
    _get_executable_path c8Env ≠ "/opt/./sonos-http-api-server" := by
  refine ⟨rfl, by decide, by decide, by decide, by decide⟩

/-- C8 (amended): whenever a path is explicitly configured and its
`str(Path(...))` rendering exists, the resolver returns that rendering —
the configured path up to pathlib normalization — and the result is
independent of the home directory, the candidate locations, and the
`which` outcome (none of the fallback steps influences it); the function
is total, so no exception is thrown. -/
theorem executable_path_configured (env : ExecEnv) (cfg : String)
    (h1 : env.configured = some cfg)
    (h2 : env.pathExists (pathStr cfg) = true) :
    _get_executable_path env = pathStr cfg := by
  simp [_get_executable_path, h1, h2]

/-- Witness for C8 (amended): the concrete environment of the
counterexample satisfies the hypotheses and resolves to the normalized
rendering. -/
theorem executable_path_configured_witness :
    c8Env.configured = some "/opt/./sonos-http-api-server" ∧
    c8Env.pathExists (pathStr "/opt/./sonos-http-api-server") = true ∧
    _get_executable_path c8Env = pathStr "/opt/./sonos-http-api-server" :=
  ⟨rfl, by decide,
   executable_path_configured c8Env "/opt/./sonos-http-api-server" rfl (by decide)⟩

/-- C9 counterexample: the state left by a start whose child died during
the readiness loop is reachable, reports `is_running = false`, yet its
status snapshot carries `processId = some 1234` (while `serverUrl` is
indeed `none`). -/
theorem get_status_dead_handle_counterexample :
    SReach c9State ∧
    is_running c9State = false ∧
    (get_status "http://localhost:8080" c9State).processId = some 1234 ∧
    (get_status "http://localhost:8080" c9State).serverUrl = none := by
  refine ⟨?_, rfl, rfl, rfl⟩
  have h0 : SReach { process := none, startedAt := none, isStarting := false } :=
    SReach.init
  have hs := SReach.step h0
    (SStep.start _
      { spawn := SpawnOutcome.ok 1234,
        obs := fun _ => { processAlive := false, probe := ProbeOutcome.exn "dead" },
        now := 5 })
  exact hs

/-- C9 (amended): when `is_running()` is false the snapshot's `serverUrl`
is null and its `startedAt` mirrors the stored timestamp, but `processId`
is null exactly when no process handle is held — a retained handle to an
exited process still reports its pid.  The snapshot is a pure function of
the state. -/
theorem get_status_when_not_running (url : String) (s : SocoState)
    (h : is_running s = false) :
    (get_status url s).serverUrl = none ∧
    ((get_status url s).processId = none ↔ s.process = none) ∧
    (get_status url s).isRunning = false ∧
    (get_status url s).startedAt = s.startedAt := by
  refine ⟨by simp [get_status, h], ?_, by simp [get_status, h], rfl⟩
  simp [get_status, Option.map_eq_none']

/-- Witness for C9 (amended): the dead-handle state has a null
`serverUrl`. -/
theorem get_status_when_not_running_witness :
    is_running c9State = false ∧
    (get_status "http://localhost:8080" c9State).serverUrl = none :=
  ⟨rfl, (get_status_when_not_running "http://localhost:8080" c9State rfl).1⟩

/-- Readiness loop, all-quiet case: when every remaining iteration sees a
live child and no 200 probe, the loop runs to exhaustion and reports
success. -/
theorem pollLoopN_all (obs : Nat → PollObs) : ∀ (n i : Nat),
    (∀ j, i ≤ j → j < i + n →
      (obs j).processAlive = true ∧ (obs j).probe ≠ ProbeOutcome.status 200) →
    pollLoopN obs n i = (true, true) := by
  intro n
  induction n with
  | zero => intro i _; rfl
  | succ n ih =>
    intro i h
    have hi := h i (Nat.le_refl i) (by omega)
    rw [pollLoopN, if_neg (by simp [hi.1]), if_neg hi.2]
    exact ih (i + 1) (fun j h1 h2 => h j (by omega) (by omega))

/-- Readiness loop, early-exit case: if the child is observed dead at
iteration `k` and every earlier iteration saw it alive without a 200
probe, the loop aborts with failure at iteration `k`. -/
theorem pollLoopN_dead (obs : Nat → PollObs) : ∀ (n i k : Nat), i ≤ k → k < i + n →
    (obs k).processAlive = false →
    (∀ j, i ≤ j → j < k →
      (obs j).processAlive = true ∧ (obs j).probe ≠ ProbeOutcome.status 200) →
    pollLoopN obs n i = (false, false) := by
  intro n
  induction n with
  | zero => intro i k h1 h2 _ _; omega
  | succ n ih =>
    intro i k h1 h2 hdead hpre
    rcases Nat.eq_or_lt_of_le h1 with rfl | hik
    · rw [pollLoopN, if_pos hdead]
    · have hi := hpre i (Nat.le_refl i) hik
      rw [pollLoopN, if_neg (by simp [hi.1]), if_neg hi.2]
      exact ih (i + 1) k hik (by omega) hdead (fun j hj1 hj2 => hpre j (by omega) hj2)

/-- Readiness loop, responsive case: if iteration `k` sees a live child
and a 200 probe and every earlier iteration saw it alive without a 200
probe, the loop reports success at iteration `k`. -/
theorem pollLoopN_responsive (obs : Nat → PollObs) : ∀ (n i k : Nat), i ≤ k → k < i + n →
    (obs k).processAlive = true →
    (obs k).probe = ProbeOutcome.status 200 →
    (∀ j, i ≤ j → j < k →
      (obs j).processAlive = true ∧ (obs j).probe ≠ ProbeOutcome.status 200) →
    pollLoopN obs n i = (true, true) := by
  intro n
  induction n with
  | zero => intro i k h1 h2 _ _ _; omega
  | succ n ih =>
    intro i k h1 h2 halive hprobe hpre
    rcases Nat.eq_or_lt_of_le h1 with rfl | hik
    · rw [pollLoopN, if_neg (by simp [halive]), if_pos hprobe]
    · have hi := hpre i (Nat.le_refl i) hik
      rw [pollLoopN, if_neg (by simp [hi.1]), if_neg hi.2]
      exact ih (i + 1) k hik (by omega) halive hprobe (fun j hj1 hj2 => hpre j (by omega) hj2)

/-- Readiness loop only consults the observations of its own iterations. -/
theorem pollLoopN_congr (obs obs2 : Nat → PollObs) : ∀ (n i : Nat),
    (∀ j, i ≤ j → j < i + n → obs j = obs2 j) →
    pollLoopN obs n i = pollLoopN obs2 n i := by
  intro n
  induction n with
  | zero => intro i _; rfl
  | succ n ih =>
    intro i h
    have h0 : obs i = obs2 i := h i (Nat.le_refl i) (by omega)
    rw [pollLoopN, pollLoopN, h0]
    split_ifs with hA hB
    · rfl
    · rfl
    · exact ih (i + 1) (fun j hj1 hj2 => h j (by omega) (by omega))

/-- C5: after a successful spawn, `start_server` runs a readiness loop of
at most 10 iterations: it returns `false` at the first iteration that
sees the child dead, returns `true` immediately at the first iteration
whose probe answers 200, returns `true` if all 10 iterations pass without
either, and its entire result is insensitive to observations beyond the
first 10 iterations. -/
theorem start_server_readiness (s : SocoState) (env : StartEnv) (pid : Nat)
    (h1 : is_running s = false) (h2 : s.isStarting = false)
    (h3 : env.spawn = SpawnOutcome.ok pid) :
    (∀ k, k < 10 → (env.obs k).processAlive = false →
      (∀ j, j < k →
        (env.obs j).processAlive = true ∧ (env.obs j).probe ≠ ProbeOutcome.status 200) →
      (start_server s env).1 = false) ∧
    (∀ k, k < 10 → (env.obs k).processAlive = true →
      (env.obs k).probe = ProbeOutcome.status 200 →
      (∀ j, j < k →
        (env.obs j).processAlive = true ∧ (env.obs j).probe ≠ ProbeOutcome.status 200) →
      (start_server s env).1 = true) ∧
    ((∀ j, j < 10 →
        (env.obs j).processAlive = true ∧ (env.obs j).probe ≠ ProbeOutcome.status 200) →
      (start_server s env).1 = true) ∧
    (∀ env2 : StartEnv, env2.spawn = env.spawn → env2.now = env.now →
      (∀ j, j < 10 → env2.obs j = env.obs j) →
      start_server s env2 = start_server s env) := by
  have hs : ∀ e : StartEnv, e.spawn = SpawnOutcome.ok pid →
      start_server s e =
        ((pollLoopN e.obs 10 0).1,
         { process := some { pid := pid, alive := (pollLoopN e.obs 10 0).2 },
           startedAt := some e.now, isStarting := false }) := by
    intro e he
    simp [start_server, h1, h2, he]
  refine ⟨?_, ?_, ?_, ?_⟩
  · intro k hk hdead hpre
    rw [hs env h3]
    have hl := pollLoopN_dead env.obs 10 0 k (Nat.zero_le k) (by omega) hdead
      (fun j _ hj2 => hpre j hj2)
    simp [hl]
  · intro k hk halive hprobe hpre
    rw [hs env h3]
    have hl := pollLoopN_responsive env.obs 10 0 k (Nat.zero_le k) (by omega) halive hprobe
      (fun j _ hj2 => hpre j hj2)
    simp [hl]
  · intro hall
    rw [hs env h3]
    have hl := pollLoopN_all env.obs 10 0 (fun j _ hj2 => hall j (by omega))
    simp [hl]
  · intro env2 hsp hnow hobs
    rw [hs env h3, hs env2 (hsp.trans h3)]
    have hc := pollLoopN_congr env2.obs env.obs 10 0 (fun j _ hj2 => hobs j (by omega))
    rw [hc, hnow]

/-- Witness for C5: a child that stays alive through all 10 probes
without ever answering 200 still yields a `true` start. -/
theorem start_server_readiness_witness :
    is_running { process := none, startedAt := none, isStarting := false } = false ∧
    (start_server { process := none, startedAt := none, isStarting := false } c5Env).1
      = true :=
  ⟨rfl,
   (start_server_readiness
      { process := none, startedAt := none, isStarting := false } c5Env 9
      rfl rfl rfl).2.2.1 (fun j _ => ⟨rfl, by simp [c5Env]⟩)⟩

/-- Reachability invariant of the supervisor: whenever no process handle
is held, no start timestamp is held either (every path that clears or
never sets `_process` does the same to `_started_at`). -/
theorem sreach_inv {s : SocoState} (h : SReach s) :
    s.process = none → s.startedAt = none := by
  induction h with
  | init => intro _; rfl
  | step hr hst ih =>
    rename_i t t'
    cases hst with
    | start env =>
      by_cases h1 : is_running t = true
      · simpa [start_server, h1] using ih
      · rw [Bool.not_eq_true] at h1
        by_cases h2 : t.isStarting = true
        · simpa [start_server, h1, h2] using ih
        · rw [Bool.not_eq_true] at h2
          cases henv : env.spawn with
          | exn m => simpa [start_server, h1, h2, henv] using ih
          | ok pid => simp [start_server, h1, h2, henv]
    | stop o =>
      cases hp : t.process with
      | none => simpa [stop_server, hp] using ih
      | some p => cases o <;> simp [stop_server, hp]
    | procExit p hp => simp

/-- C3: from every reachable supervisor state, `stop_server` leaves no
process handle and no start timestamp, a subsequent `is_running` answers
`false`, and the call returns `true` in every branch except the
unexpected-exception branch taken with a handle present, which returns
`false` with the state still cleared. -/
theorem stop_server_clears (s : SocoState) (h : SReach s) (o : StopOutcome) :
    (stop_server s o).2.process = none ∧
    (stop_server s o).2.startedAt = none ∧
    is_running (stop_server s o).2 = false ∧
    ((stop_server s o).1 = false ↔
      (s.process ≠ none ∧ ∃ m, o = StopOutcome.exn m)) := by
  cases hp : s.process with
  | none =>
    have hstarted := sreach_inv h hp
    simp [stop_server, hp, is_running, hstarted]
  | some p =>
    cases o with
    | graceful => simp [stop_server, hp, is_running]
    | killedAfterTimeout => simp [stop_server, hp, is_running]
    | exn m => simp [stop_server, hp, is_running]

/-- Witness for C3: stopping the freshly constructed (reachable, idle)
supervisor clears the (already absent) handle and returns successfully. -/
theorem stop_server_clears_witness :
    SReach { process := none, startedAt := none, isStarting := false } ∧
    (stop_server { process := none, startedAt := none, isStarting := false }
        StopOutcome.graceful).2.process = none :=
  ⟨SReach.init,
   (stop_server_clears _ SReach.init StopOutcome.graceful).1⟩

/-- Lock invariant of the dispatcher: in every reachable state, any task
inside the `async with self._request_lock` block is the recorded holder
of the lock. -/
theorem dreach_lock_inv {s : DispState} (h : DReach s) :
    ∀ i : Nat, s.pcs[i]? = some TaskPC.critical → s.lock = some i := by
  induction h with
  | init n =>
    intro i hi
    rw [List.getElem?_replicate] at hi
    by_cases hin : i < n <;> simp [hin] at hi
  | step hr hst ih =>
    rename_i t t'
    cases hst with
    | call j hj =>
      intro i hi
      rw [List.getElem?_set] at hi
      by_cases hji : j = i
      · subst hji
        rcases List.getElem?_eq_some.mp hj with ⟨hlen, -⟩
        simp [hlen] at hi
      · rw [if_neg hji] at hi
        exact ih i hi
    | acquire j hj hl =>
      intro i hi
      rw [List.getElem?_set] at hi
      by_cases hji : j = i
      · subst hji; rfl
      · rw [if_neg hji] at hi
        exact absurd (hl ▸ ih i hi) (by simp)
    | finish j hj hl =>
      intro i hi
      rw [List.getElem?_set] at hi
      by_cases hji : j = i
      · subst hji
        rcases List.getElem?_eq_some.mp hj with ⟨hlen, -⟩
        simp [hlen] at hi
      · rw [if_neg hji] at hi
        have := (ih i hi).symm.trans hl
        exact absurd (Option.some.inj this) (fun he => hji he.symm)

/-- C1: in every reachable dispatcher state, at most one
`execute_command` call is inside the request-lock-guarded block that
issues the outbound HTTP request and records its result — so no two
outbound HTTP calls are ever in flight concurrently, and a later caller
enters only after the prior holder finished (successfully or not). -/
theorem execute_command_mutual_exclusion {s : DispState} (h : DReach s)
    (i j : Nat) (hi : s.pcs[i]? = some TaskPC.critical)
    (hj : s.pcs[j]? = some TaskPC.critical) : i = j := by
  have h1 := dreach_lock_inv h i hi
  have h2 := dreach_lock_inv h j hj
  exact Option.some.inj (h1.symm.trans h2)

/-- Witness for C1: two tasks, the first has entered the critical
section; mutual exclusion instantiates to that state. -/
theorem execute_command_mutual_exclusion_witness :
    DReach { pcs := [TaskPC.critical, TaskPC.idle], lock := some 0 } ∧ 0 = 0 := by
  have h0 : DReach { pcs := [TaskPC.idle, TaskPC.idle], lock := none } :=
    DReach.init 2
  have h1 : DReach { pcs := [TaskPC.waiting, TaskPC.idle], lock := none } :=
    DReach.step h0 (DStep.call _ 0 rfl)
  have h2 : DReach { pcs := [TaskPC.critical, TaskPC.idle], lock := some 0 } :=
    DReach.step h1 (DStep.acquire _ 0 rfl rfl)
  exact ⟨h2, execute_command_mutual_exclusion h2 0 0 rfl rfl⟩
